import Mathlib

/-!
Shallow embedding of the eDOT front end's stateful logic, translated from
src/frontend/src/components/Dapp.tsx and src/frontend/src/components/Transfer.tsx.

React's setState merges a partial update into the state record; every
setState call in the source is rendered here as a record update of exactly
the fields that call passes.  Timers registered through window.setInterval
and cancelled through window.clearInterval are modelled by an explicit
registry (World.activeIntervals); contract balance reads are counted by
World.balanceReads so that "a balance read happens" is observable.
-/

namespace EDot

/-- Hardhat network id constant from Dapp.tsx. -/
def HARDHAT_NETWORK_ID : String := "31337"

/-- Error code indicating that the user canceled a transaction, from Dapp.tsx. -/
def ERROR_CODE_TX_REJECTED_BY_USER : Nat := 4001

/-- Token data kept in component state (type TokenData in Dapp.tsx). -/
structure TokenData where
  name : Option String
  symbol : Option String
  decimals : Option String
  deriving DecidableEq

/-- A JavaScript error value as observed by the catch block of
_transferTokens: an optional numeric provider code, a message, and an
optional nested data.message (type ErrorType in Dapp.tsx). -/
structure RpcError where
  code : Option Nat
  message : String
  dataMessage : Option String
  deriving DecidableEq

/-- The component state record (type DappState in Dapp.tsx). -/
structure DappState where
  tokenData : Option TokenData
  selectedAddress : Option String
  balance : Option Int
  txBeingSent : Option String
  transactionError : Option RpcError
  networkError : Option String
  isDarkTheme : Option Bool
  isProcessing : Option Bool
  deriving DecidableEq

/-- The initialState field of the Dapp class: every field undefined. -/
def initialState : DappState :=
  { tokenData := none, selectedAddress := none, balance := none,
    txBeingSent := none, transactionError := none, networkError := none,
    isDarkTheme := none, isProcessing := none }

/-- Behaviour of the deployed token contract as visible through the ethers
handle: the name() and symbol() reads, the value the (unused) decimals()
read would return, and balanceOf.  balanceOf receives the possibly
undefined selected address because the source passes
this.state.selectedAddress to it unchecked. -/
structure TokenContract where
  name : String
  symbol : String
  decimals : String
  balanceOf : Option String → Int

/-- A timer registered with window.setInterval: its id and its period in
milliseconds. -/
structure IntervalRec where
  id : Nat
  periodMs : Nat
  deriving DecidableEq

/-- The browser timer registry plus an instrumentation counter of balance
reads issued against the token contract. -/
structure World where
  activeIntervals : List IntervalRec
  nextId : Nat
  balanceReads : Nat
  deriving DecidableEq

/-- The Dapp component instance: its state plus its private fields.  The
orchestrator and farm controller handles carry no behaviour used by the
in-scope flow, so they are modelled as presence flags. -/
structure Dapp where
  state : DappState
  _token : Option TokenContract
  _orchestrator : Option Unit
  _farmController : Option Unit
  _pollDataInterval : Option Nat

/-- A component instance together with the browser timer world. -/
structure Config where
  dapp : Dapp
  world : World

/-- The injected wallet provider environment at the moment of an event:
the active network id, the account list revealed by enable(), and the
deployed token contract that a created handle binds to. -/
structure Env where
  networkVersion : String
  enabledAccounts : List String
  tokenContract : TokenContract

/-- The method _stopPollingData: clearInterval on the stored id (a no-op
when the stored id is undefined), then clear the stored id. -/
def _stopPollingData (c : Config) : Config :=
  let w :=
    match c.dapp._pollDataInterval with
    | some i =>
        { c.world with
          activeIntervals := c.world.activeIntervals.filter (fun r => r.id != i) }
    | none => c.world
  { dapp := { c.dapp with _pollDataInterval := none }, world := w }

/-- The method _updateBalance: when the token handle exists, read
balanceOf(this.state.selectedAddress) and store it; otherwise store
undefined.  Only the branch that actually calls the contract counts as a
balance read. -/
def _updateBalance (c : Config) : Config :=
  match c.dapp._token with
  | some t =>
      { dapp := { c.dapp with state :=
          { c.dapp.state with
            balance := some (t.balanceOf c.dapp.state.selectedAddress) } },
        world := { c.world with balanceReads := c.world.balanceReads + 1 } }
  | none =>
      { c with dapp := { c.dapp with state := { c.dapp.state with balance := none } } }

/-- The method _startPollingData: window.setInterval(updateBalance, 1000)
followed by one immediate updateBalance call. -/
def _startPollingData (c : Config) : Config :=
  let i := c.world.nextId
  let w := { c.world with
    activeIntervals := { id := i, periodMs := 1000 } :: c.world.activeIntervals,
    nextId := i + 1 }
  _updateBalance { dapp := { c.dapp with _pollDataInterval := some i }, world := w }

/-- The method _getTokenData: name and symbol are awaited from the
contract; decimals is the literal string "9" because the decimals() call
is commented out in the source.  When the handle is missing every field is
stored as undefined. -/
def _getTokenData (c : Config) : Config :=
  match c.dapp._token with
  | some t =>
      { c with dapp := { c.dapp with state := { c.dapp.state with
          tokenData := some { name := some t.name, symbol := some t.symbol,
                              decimals := some "9" } } } }
  | none =>
      { c with dapp := { c.dapp with state := { c.dapp.state with
          tokenData := some { name := none, symbol := none, decimals := none } } } }

/-- The method _initializeEthers: create the provider and the three bound
contract handles. -/
def _initializeEthers (c : Config) (env : Env) : Config :=
  { c with dapp := { c.dapp with
      _token := some env.tokenContract,
      _orchestrator := some (),
      _farmController := some () } }

/-- The method _initializeDapp: store the user address in the state, then
initialize ethers, fetch the token data and start polling. -/
def _initializeDapp (c : Config) (env : Env) (userAddress : Option String) : Config :=
  let c1 := { c with dapp := { c.dapp with state :=
      { c.dapp.state with selectedAddress := userAddress } } }
  _startPollingData (_getTokenData (_initializeEthers c1 env))

/-- The method _checkNetwork: succeed exactly when the active network id
equals the Hardhat id, otherwise record the network error message and
fail. -/
def _checkNetwork (c : Config) (env : Env) : Bool × Config :=
  if env.networkVersion = HARDHAT_NETWORK_ID then (true, c)
  else
    (false,
     { c with dapp := { c.dapp with state := { c.dapp.state with
         networkError := some "Please connect Metamask to Localhost:8545" } } })

/-- The method _connectWallet up to handler registration: destructure the
first account revealed by enable(), check the network, and initialize only
when the check passed.  The accountsChanged and networkChanged handlers it
registers are modelled as separate events. -/
def _connectWallet (c : Config) (env : Env) : Config :=
  let userAddress := env.enabledAccounts.head?
  let checked := _checkNetwork c env
  if checked.1 then _initializeDapp checked.2 env userAddress else checked.2

/-- The method _resetState: setState(this.initialState).  The private
fields are not touched by it. -/
def _resetState (c : Config) : Config :=
  { c with dapp := { c.dapp with state := initialState } }

/-- The method _dismissTransactionError. -/
def _dismissTransactionError (c : Config) : Config :=
  { c with dapp := { c.dapp with state :=
      { c.dapp.state with transactionError := none } } }

/-- The method _dismissNetworkError. -/
def _dismissNetworkError (c : Config) : Config :=
  { c with dapp := { c.dapp with state :=
      { c.dapp.state with networkError := none } } }

/-- The method _toggleTheme. -/
def _toggleTheme (c : Config) (isDark : Bool) : Config :=
  { c with dapp := { c.dapp with state :=
      { c.dapp.state with isDarkTheme := some isDark } } }

/-- The method _setIsProcessing. -/
def _setIsProcessing (c : Config) (b : Bool) : Config :=
  { c with dapp := { c.dapp with state :=
      { c.dapp.state with isProcessing := some b } } }

/-- Outcome of the externally resolved part of a transfer attempt: the
transfer call throws, the returned transaction's wait() throws, or the
transaction is mined with an inclusion status. -/
inductive TransferOutcome where
  | submitError (e : RpcError)
  | waitError (txHash : String) (e : RpcError)
  | mined (txHash : String) (status : Nat)
  deriving DecidableEq

/-- The method _transferTokens, with its try, catch and finally blocks
flattened: dismiss any previous transaction error, throw when the token
handle is missing, otherwise submit; on a hash record txBeingSent; a mined
status of zero is turned into a thrown Transaction failed error; on
success update the balance; the catch block swallows the user-rejection
code and stores every other error; the finally block always clears
txBeingSent. -/
def _transferTokens (c : Config) (outcome : TransferOutcome) : Config :=
  let c0 := _dismissTransactionError c
  let tryResult : Config × Option RpcError :=
    match c0.dapp._token with
    | none =>
        (c0, some { code := none, message := "Token contract not initialized",
                    dataMessage := none })
    | some _ =>
        match outcome with
        | .submitError e => (c0, some e)
        | .waitError h e =>
            ({ c0 with dapp := { c0.dapp with state :=
                { c0.dapp.state with txBeingSent := some h } } }, some e)
        | .mined h status =>
            let c1 := { c0 with dapp := { c0.dapp with state :=
                { c0.dapp.state with txBeingSent := some h } } }
            if status = 0 then
              (c1, some { code := none, message := "Transaction failed",
                          dataMessage := none })
            else
              (_updateBalance c1, none)
  let c2 :=
    match tryResult.2 with
    | none => tryResult.1
    | some e =>
        if e.code = some ERROR_CODE_TX_REJECTED_BY_USER then tryResult.1
        else
          { tryResult.1 with dapp := { tryResult.1.dapp with state :=
              { tryResult.1.dapp.state with transactionError := some e } } }
  { c2 with dapp := { c2.dapp with state :=
      { c2.dapp.state with txBeingSent := none } } }

/-- A user-visible or provider-level event hitting the component. -/
inductive Event where
  | connectWallet (env : Env)
  | accountsChanged (env : Env) (newAddress : Option String)
  | networkChanged
  | unmount
  | pollTick (id : Nat)
  | transfer (outcome : TransferOutcome)
  | dismissTransactionError
  | dismissNetworkError
  | toggleTheme (isDark : Bool)
  | setIsProcessing (b : Bool)

/-- The accountsChanged handler registered in _connectWallet: stop
polling, then reset the state when the new address is undefined and
re-initialize otherwise. -/
def onAccountsChanged (c : Config) (env : Env) (newAddress : Option String) : Config :=
  let c1 := _stopPollingData c
  match newAddress with
  | none => _resetState c1
  | some a => _initializeDapp c1 env (some a)

/-- The networkChanged handler registered in _connectWallet: stop polling
and reset the state. -/
def onNetworkChanged (c : Config) : Config :=
  _resetState (_stopPollingData c)

/-- One event applied to the application.  The connect event is reachable
only while no address is selected, mirroring the render method, which
mounts the ConnectWallet view exactly in that case.  A pollTick fires only
for a currently registered interval id, and componentWillUnmount calls
_stopPollingData. -/
def step (c : Config) (e : Event) : Config :=
  match e with
  | .connectWallet env =>
      if c.dapp.state.selectedAddress.isSome then c else _connectWallet c env
  | .accountsChanged env a => onAccountsChanged c env a
  | .networkChanged => onNetworkChanged c
  | .unmount => _stopPollingData c
  | .pollTick i =>
      if c.world.activeIntervals.any (fun r => r.id == i) then _updateBalance c else c
  | .transfer o => _transferTokens c o
  | .dismissTransactionError => _dismissTransactionError c
  | .dismissNetworkError => _dismissNetworkError c
  | .toggleTheme b => _toggleTheme c b
  | .setIsProcessing b => _setIsProcessing c b

/-- A freshly constructed component in a fresh timer world. -/
def initConfig : Config :=
  { dapp := { state := initialState, _token := none, _orchestrator := none,
              _farmController := none, _pollDataInterval := none },
    world := { activeIntervals := [], nextId := 0, balanceReads := 0 } }

/-- The form state of the Transfer component: the two controlled inputs,
each either a string or undefined. -/
structure TransferData where
  amount : Option String
  to_ : Option String
  deriving DecidableEq

/-- Observable outcome of submitting the transfer form: an alert, or a
call of the transfer callback with recipient and amount. -/
inductive SubmitResult where
  | alerted (msg : String)
  | transferred (to_ : String) (amount : String)
  deriving DecidableEq

/-- JavaScript falsiness of the string-valued form fields: undefined and
the empty string are falsy, every other string is truthy. -/
def jsFalsy : Option String → Bool
  | none => true
  | some s => s == ""

/-- The onSubmit handler of the Transfer form: alert on an invalid amount,
then on a missing recipient, else call transferTokens(to,
amount.toString()). -/
def submitTransfer (td : TransferData) : SubmitResult :=
  if jsFalsy td.amount || td.amount == some "0" then .alerted "Amount is invalid!"
  else if jsFalsy td.to_ then .alerted "Address is invalid!"
  else .transferred (td.to_.getD "") (td.amount.getD "")

/-- Whether a form submission reached the transfer callback. -/
def isTransferCall : SubmitResult → Bool
  | .transferred _ _ => true
  | .alerted _ => false

/-- Whether a form submission ended in an alert. -/
def isAlert : SubmitResult → Bool
  | .alerted _ => true
  | .transferred _ _ => false

/-- The validity condition exactly as the specification words it: the
entered amount is present, non-empty and not the string "0", and the
recipient address is present and non-empty. -/
def specValidInput (td : TransferData) : Bool :=
  match td.amount, td.to_ with
  | some a, some t => a != "" && a != "0" && t != ""
  | _, _ => false

/-- Events that by their handlers cannot touch the stored token data:
everything except connecting, an account change and a network change. -/
def preservesTokenData : Event → Bool
  | .connectWallet _ => false
  | .accountsChanged _ _ => false
  | .networkChanged => false
  | _ => true

/-- The event that is an explicit user dismissal of the transaction
error. -/
def isExplicitTxDismiss : Event → Bool
  | .dismissTransactionError => true
  | _ => false

/-- A transfer attempt whose transaction was mined with a nonzero
status. -/
def isSuccessfulTransfer : Event → Bool
  | .transfer (.mined _ s) => s != 0
  | _ => false

/-- Events on which the code can clear the stored transaction error: the
explicit dismissal, any transfer attempt (which dismisses the previous
error before submitting), and the two session resets. -/
def txErrorClearer : Event → Bool
  | .dismissTransactionError => true
  | .transfer _ => true
  | .networkChanged => true
  | .accountsChanged _ none => true
  | _ => false

/-- Events on which the code can clear the stored network error: the
explicit dismissal and the two session resets. -/
def netErrorClearer : Event → Bool
  | .dismissNetworkError => true
  | .networkChanged => true
  | .accountsChanged _ none => true
  | _ => false

/-- Events after which the source has called _stopPollingData and has not
restarted polling: unmount, a network change, and an account removal. -/
def stopsAllPolling : Event → Bool
  | .unmount => true
  | .networkChanged => true
  | .accountsChanged _ none => true
  | _ => false

/-- Events that reset or replace the wallet session: any account change
and a network change. -/
def sessionResets : Event → Bool
  | .accountsChanged _ _ => true
  | .networkChanged => true
  | _ => false

/-- No timer registered before the step survives in the registry after
it. -/
def oldTimerGone (c cNew : Config) : Bool :=
  match c.dapp._pollDataInterval with
  | none => true
  | some i => !(cNew.world.activeIntervals.any (fun r => r.id == i))

/-- The timer discipline the component maintains: the registry holds
exactly the one interval recorded in _pollDataInterval, always with the
1000 ms period; a session without a selected address has no timer; and
every registered id is below the next fresh id. -/
def timersInv (c : Config) : Bool :=
  decide (c.world.activeIntervals =
      c.dapp._pollDataInterval.toList.map (fun i => { id := i, periodMs := 1000 })) &&
  (!c.dapp.state.selectedAddress.isNone || c.dapp._pollDataInterval.isNone) &&
  decide (∀ r ∈ c.world.activeIntervals, r.id < c.world.nextId)

/-- The provider behaves as specified for enable(): a connect event
reveals at least one account.  Every other event is unconstrained. -/
def goodEnv : Event → Bool
  | .connectWallet env => !env.enabledAccounts.isEmpty
  | _ => true

/-- A concrete token contract used for concrete scenarios; its decimals()
read would answer "18". -/
def tokTST : TokenContract :=
  { name := "Test", symbol := "TST", decimals := "18", balanceOf := fun _ => 100 }

/-- A provider environment on network id "1" (the wrong network). -/
def envWrongNet : Env :=
  { networkVersion := "1", enabledAccounts := ["0xabc"], tokenContract := tokTST }

/-- A connected session: token handle bound, an address selected. -/
def cfgConnected : Config :=
  { dapp := { state := { initialState with selectedAddress := some "0xabc" },
              _token := some tokTST, _orchestrator := some (),
              _farmController := some (), _pollDataInterval := none },
    world := { activeIntervals := [], nextId := 0, balanceReads := 0 } }

/-- A connected session that still shows an earlier transaction error. -/
def cfgOldTxError : Config :=
  { dapp := { state :=
        { initialState with
          selectedAddress := some "0xabc",
          transactionError := some { code := none, message := "old failure",
                                     dataMessage := none } },
              _token := some tokTST, _orchestrator := some (),
              _farmController := some (), _pollDataInterval := none },
    world := { activeIntervals := [], nextId := 0, balanceReads := 0 } }

/-- A connected session showing both an earlier transaction error and an
earlier network error. -/
def cfgBothErrors : Config :=
  { dapp := { state :=
        { initialState with
          selectedAddress := some "0xabc",
          transactionError := some { code := none, message := "old failure",
                                     dataMessage := none },
          networkError := some "Please connect Metamask to Localhost:8545" },
              _token := some tokTST, _orchestrator := some (),
              _farmController := some (), _pollDataInterval := none },
    world := { activeIntervals := [], nextId := 0, balanceReads := 0 } }

/-- A connected session with an active polling timer of id 0. -/
def cfgPolling : Config :=
  { dapp := { state := { initialState with selectedAddress := some "0xabc" },
              _token := some tokTST, _orchestrator := some (),
              _farmController := some (), _pollDataInterval := some 0 },
    world := { activeIntervals := [{ id := 0, periodMs := 1000 }], nextId := 1,
               balanceReads := 1 } }

/-- A transfer attempt that the user declines to sign. -/
def evUserRejected : Event :=
  Event.transfer (TransferOutcome.submitError
    { code := some 4001, message := "User denied transaction signature",
      dataMessage := none })

/-- A transfer attempt writes only the balance, the pending hash and the
transaction error: token data, selected address, network error, the theme
and processing flags, the contract handles and the timer world are left
unchanged. -/
theorem transferTokens_frame (c : Config) (o : TransferOutcome) :
    (_transferTokens c o).dapp.state.tokenData = c.dapp.state.tokenData ∧
    (_transferTokens c o).dapp.state.selectedAddress = c.dapp.state.selectedAddress ∧
    (_transferTokens c o).dapp.state.networkError = c.dapp.state.networkError ∧
    (_transferTokens c o).dapp.state.isDarkTheme = c.dapp.state.isDarkTheme ∧
    (_transferTokens c o).dapp.state.isProcessing = c.dapp.state.isProcessing ∧
    (_transferTokens c o).dapp._token = c.dapp._token ∧
    (_transferTokens c o).dapp._pollDataInterval = c.dapp._pollDataInterval ∧
    (_transferTokens c o).world.activeIntervals = c.world.activeIntervals ∧
    (_transferTokens c o).world.nextId = c.world.nextId := by
  unfold _transferTokens _dismissTransactionError _updateBalance
  cases h : c.dapp._token <;> cases o <;> dsimp [h] <;>
    repeat' first
      | split
      | simp [h]

/-- C2: for every execution of the transfer-submission operation, whatever
the outcome (mined successfully, mined with failure status, provider
error, wait error, user rejection, or a missing token handle), the
pending-transaction identifier txBeingSent is undefined at the end of the
attempt: the finally block runs on every path out of the operation. -/
theorem C2_txBeingSent_always_cleared (c : Config) (o : TransferOutcome) :
    (_transferTokens c o).dapp.state.txBeingSent = none := rfl

/-- C5: a transfer whose receipt reports inclusion status 0 is treated as
failed: afterwards the transaction error is the stored Transaction failed
error (in particular non-empty) and the pending-transaction identifier is
cleared. -/
theorem C5_zero_status_is_failure (c : Config) (t : TokenContract) (hsh : String)
    (h : c.dapp._token = some t) :
    (_transferTokens c (.mined hsh 0)).dapp.state.transactionError =
      some { code := none, message := "Transaction failed", dataMessage := none } ∧
    (_transferTokens c (.mined hsh 0)).dapp.state.txBeingSent = none := by
  unfold _transferTokens _dismissTransactionError
  simp [h, ERROR_CODE_TX_REJECTED_BY_USER]

/-- Witness for C5 on a concrete connected session and transaction
hash. -/
theorem C5_zero_status_is_failure_witness :
    cfgConnected.dapp._token = some tokTST ∧
    ((_transferTokens cfgConnected (.mined "0xh" 0)).dapp.state.transactionError =
      some { code := none, message := "Transaction failed", dataMessage := none } ∧
     (_transferTokens cfgConnected (.mined "0xh" 0)).dapp.state.txBeingSent = none) :=
  ⟨rfl, C5_zero_status_is_failure cfgConnected tokTST "0xh" rfl⟩

/-- C6: a transfer attempt failing with the provider code meaning the user
declined to sign (the constant 4001) is silent: no transaction error is
stored, the pending-transaction identifier ends cleared, and the rest of
the state (balance, token data, selected address, network error, theme and
processing flags) is untouched. -/
theorem C6_user_rejection_is_silent (c : Config) (t : TokenContract) (e : RpcError)
    (h : c.dapp._token = some t) (hc : e.code = some ERROR_CODE_TX_REJECTED_BY_USER) :
    (_transferTokens c (.submitError e)).dapp.state.transactionError = none ∧
    (_transferTokens c (.submitError e)).dapp.state.txBeingSent = none ∧
    (_transferTokens c (.submitError e)).dapp.state.balance = c.dapp.state.balance ∧
    (_transferTokens c (.submitError e)).dapp.state.tokenData = c.dapp.state.tokenData ∧
    (_transferTokens c (.submitError e)).dapp.state.selectedAddress =
      c.dapp.state.selectedAddress ∧
    (_transferTokens c (.submitError e)).dapp.state.networkError =
      c.dapp.state.networkError ∧
    (_transferTokens c (.submitError e)).dapp.state.isDarkTheme =
      c.dapp.state.isDarkTheme ∧
    (_transferTokens c (.submitError e)).dapp.state.isProcessing =
      c.dapp.state.isProcessing := by
  unfold _transferTokens _dismissTransactionError
  simp [h, hc]

/-- Witness for C6 on a concrete connected session and rejection error. -/
theorem C6_user_rejection_is_silent_witness :
    cfgConnected.dapp._token = some tokTST ∧
    (RpcError.code { code := some 4001, message := "User denied transaction signature",
                     dataMessage := none } = some ERROR_CODE_TX_REJECTED_BY_USER) ∧
    ((_transferTokens cfgConnected (.submitError
        { code := some 4001, message := "User denied transaction signature",
          dataMessage := none })).dapp.state.transactionError = none) :=
  ⟨rfl, rfl,
   (C6_user_rejection_is_silent cfgConnected tokTST
     { code := some 4001, message := "User denied transaction signature",
       dataMessage := none } rfl rfl).1⟩

/-- C9: dismissing a transaction error clears exactly that field and
leaves every other field of the application state unchanged. -/
theorem C9_dismiss_transaction_error_frame (c : Config) :
    (_dismissTransactionError c).dapp.state.transactionError = none ∧
    (_dismissTransactionError c).dapp.state.tokenData = c.dapp.state.tokenData ∧
    (_dismissTransactionError c).dapp.state.selectedAddress =
      c.dapp.state.selectedAddress ∧
    (_dismissTransactionError c).dapp.state.balance = c.dapp.state.balance ∧
    (_dismissTransactionError c).dapp.state.txBeingSent = c.dapp.state.txBeingSent ∧
    (_dismissTransactionError c).dapp.state.networkError = c.dapp.state.networkError ∧
    (_dismissTransactionError c).dapp.state.isDarkTheme = c.dapp.state.isDarkTheme ∧
    (_dismissTransactionError c).dapp.state.isProcessing = c.dapp.state.isProcessing :=
  ⟨rfl, rfl, rfl, rfl, rfl, rfl, rfl, rfl⟩

/-- C4: when the wallet's active network id differs from the expected
constant, connecting records the wrong-network message, creates none of
the three contract handles, and does not start balance polling (the timer
world is untouched). -/
theorem C4_wrong_network_halts (c : Config) (env : Env)
    (h : env.networkVersion ≠ HARDHAT_NETWORK_ID) :
    (_connectWallet c env).dapp.state.networkError =
      some "Please connect Metamask to Localhost:8545" ∧
    (_connectWallet c env).dapp._token = c.dapp._token ∧
    (_connectWallet c env).dapp._orchestrator = c.dapp._orchestrator ∧
    (_connectWallet c env).dapp._farmController = c.dapp._farmController ∧
    (_connectWallet c env).dapp._pollDataInterval = c.dapp._pollDataInterval ∧
    (_connectWallet c env).world = c.world := by
  unfold _connectWallet _checkNetwork
  simp [h]

/-- Witness for C4: connecting a fresh component with chain id "1". -/
theorem C4_wrong_network_halts_witness :
    envWrongNet.networkVersion ≠ HARDHAT_NETWORK_ID ∧
    ((_connectWallet initConfig envWrongNet).dapp.state.networkError =
      some "Please connect Metamask to Localhost:8545" ∧
     (_connectWallet initConfig envWrongNet).dapp._token = initConfig.dapp._token ∧
     (_connectWallet initConfig envWrongNet).dapp._orchestrator =
       initConfig.dapp._orchestrator ∧
     (_connectWallet initConfig envWrongNet).dapp._farmController =
       initConfig.dapp._farmController ∧
     (_connectWallet initConfig envWrongNet).dapp._pollDataInterval =
       initConfig.dapp._pollDataInterval ∧
     (_connectWallet initConfig envWrongNet).world = initConfig.world) :=
  ⟨by decide, C4_wrong_network_halts initConfig envWrongNet (by decide)⟩

/-- C10: the transfer form calls the transfer callback exactly on inputs
with a present, non-empty amount different from the string "0" and a
present, non-empty recipient; every other input produces an alert and
never reaches the callback. -/
theorem C10_form_guard (td : TransferData) :
    isTransferCall (submitTransfer td) = specValidInput td ∧
    isAlert (submitTransfer td) = !specValidInput td := by
  rcases td with ⟨a, t⟩
  cases a <;> cases t <;>
    simp only [submitTransfer, jsFalsy, specValidInput] <;>
    split_ifs <;>
    simp_all [isTransferCall, isAlert, bne_iff_ne] <;>
    tauto

/-- C8: starting balance polling registers exactly one new repeating timer
with the fixed 1000 ms period, records its id, performs exactly one
immediate balance read from the token contract before any tick, and a
subsequent tick of that timer performs a further contract balance read. -/
theorem C8_polling_start (c : Config) (t : TokenContract) (h : c.dapp._token = some t) :
    (_startPollingData c).world.activeIntervals =
      { id := c.world.nextId, periodMs := 1000 } :: c.world.activeIntervals ∧
    (_startPollingData c).dapp._pollDataInterval = some c.world.nextId ∧
    (_startPollingData c).dapp.state.balance =
      some (t.balanceOf c.dapp.state.selectedAddress) ∧
    (_startPollingData c).world.balanceReads = c.world.balanceReads + 1 ∧
    (step (_startPollingData c) (Event.pollTick c.world.nextId)).world.balanceReads =
      c.world.balanceReads + 2 ∧
    (step (_startPollingData c) (Event.pollTick c.world.nextId)).dapp.state.balance =
      some (t.balanceOf c.dapp.state.selectedAddress) := by
  unfold step _startPollingData _updateBalance
  simp [h]

/-- Witness for C8 on a concrete connected session. -/
theorem C8_polling_start_witness :
    cfgConnected.dapp._token = some tokTST ∧
    ((_startPollingData cfgConnected).world.activeIntervals =
      { id := cfgConnected.world.nextId, periodMs := 1000 } ::
        cfgConnected.world.activeIntervals ∧
     (_startPollingData cfgConnected).dapp._pollDataInterval =
       some cfgConnected.world.nextId ∧
     (_startPollingData cfgConnected).dapp.state.balance =
       some (tokTST.balanceOf cfgConnected.dapp.state.selectedAddress) ∧
     (_startPollingData cfgConnected).world.balanceReads =
       cfgConnected.world.balanceReads + 1 ∧
     (step (_startPollingData cfgConnected)
        (Event.pollTick cfgConnected.world.nextId)).world.balanceReads =
       cfgConnected.world.balanceReads + 2 ∧
     (step (_startPollingData cfgConnected)
        (Event.pollTick cfgConnected.world.nextId)).dapp.state.balance =
       some (tokTST.balanceOf cfgConnected.dapp.state.selectedAddress)) :=
  ⟨rfl, C8_polling_start cfgConnected tokTST rfl⟩

/-- C1 counterexample: against a token contract whose decimals() read
answers "18", the session stores decimals "9" — the stored token data is
not the triple of the contract's name(), symbol() and decimals() reads, so
the decimals field is not fetched from the contract. -/
theorem C1_counterexample :
    tokTST.decimals = "18" ∧
    (_getTokenData cfgConnected).dapp.state.tokenData =
      some { name := some "Test", symbol := some "TST", decimals := some "9" } ∧
    (_getTokenData cfgConnected).dapp.state.tokenData ≠
      some { name := some tokTST.name, symbol := some tokTST.symbol,
             decimals := some tokTST.decimals } :=
  ⟨rfl, by decide, by decide⟩

/-- C1 amended: the token data stored for a session takes name and symbol
from the contract's name() and symbol() reads, but decimals is the
constant string "9" (the decimals() read is commented out); and the stored
token data is immutable under every event other than connecting, an
account change and a network change. -/
theorem C1_token_data (c cAny : Config) (t : TokenContract) (e : Event)
    (h : c.dapp._token = some t) (he : preservesTokenData e = true) :
    (_getTokenData c).dapp.state.tokenData =
      some { name := some t.name, symbol := some t.symbol, decimals := some "9" } ∧
    (step cAny e).dapp.state.tokenData = cAny.dapp.state.tokenData := by
  constructor
  · unfold _getTokenData
    simp [h]
  · cases e with
    | connectWallet env => simp [preservesTokenData] at he
    | accountsChanged env a => simp [preservesTokenData] at he
    | networkChanged => simp [preservesTokenData] at he
    | unmount => rfl
    | pollTick i =>
        simp only [step]
        unfold _updateBalance
        split
        · split <;> rfl
        · rfl
    | transfer o => exact (transferTokens_frame cAny o).1
    | dismissTransactionError => rfl
    | dismissNetworkError => rfl
    | toggleTheme b => rfl
    | setIsProcessing b => rfl

/-- Witness for C1 amended on a concrete session and a poll tick. -/
theorem C1_token_data_witness :
    cfgConnected.dapp._token = some tokTST ∧
    preservesTokenData (Event.pollTick 0) = true ∧
    ((_getTokenData cfgConnected).dapp.state.tokenData =
      some { name := some tokTST.name, symbol := some tokTST.symbol,
             decimals := some "9" } ∧
     (step cfgPolling (Event.pollTick 0)).dapp.state.tokenData =
       cfgPolling.dapp.state.tokenData) :=
  ⟨rfl, rfl, C1_token_data cfgConnected cfgPolling tokTST (Event.pollTick 0) rfl rfl⟩

/-- C3 counterexample: with an old transaction error on display, a
transfer attempt that the user rejects ends with the transaction error
cleared, although the event is neither an explicit dismissal nor a
successful transfer — so the error fields are not cleared only through
dismissal or successful completion of the corresponding action. -/
theorem C3_counterexample :
    cfgOldTxError.dapp.state.transactionError.isSome = true ∧
    (step cfgOldTxError evUserRejected).dapp.state.transactionError = none ∧
    isExplicitTxDismiss evUserRejected = false ∧
    isSuccessfulTransfer evUserRejected = false :=
  ⟨rfl, by decide, rfl, rfl⟩

/-- C3 amended: at most one error of each kind is retained (both are
single optional fields, and a new error of the same kind overwrites the
old one); the transaction error can be cleared only by its explicit
dismissal, by a transfer attempt (which always dismisses the previous
transaction error first, even when the attempt then fails or is rejected)
or by a session reset (account change or network change), and the network
error only by its explicit dismissal or a session reset — every other
event leaves the transaction error exactly unchanged and can at most
overwrite (never clear) the network error. -/
theorem C3_error_clearing (c : Config) (e : Event)
    (h1 : txErrorClearer e = false) (h2 : netErrorClearer e = false) :
    (step c e).dapp.state.transactionError = c.dapp.state.transactionError ∧
    ((step c e).dapp.state.networkError = c.dapp.state.networkError ∨
     (step c e).dapp.state.networkError =
       some "Please connect Metamask to Localhost:8545") := by
  cases e with
  | connectWallet env =>
      unfold step _connectWallet _checkNetwork _initializeDapp _initializeEthers
        _getTokenData _startPollingData _updateBalance
      by_cases hs : c.dapp.state.selectedAddress.isSome <;> simp [hs] <;>
        by_cases hn : env.networkVersion = HARDHAT_NETWORK_ID <;> simp [hn]
  | accountsChanged env a =>
      cases a with
      | none => simp [txErrorClearer] at h1
      | some addr =>
          unfold step onAccountsChanged _stopPollingData _initializeDapp
            _initializeEthers _getTokenData _startPollingData _updateBalance
          simp
  | networkChanged => simp [txErrorClearer] at h1
  | unmount => exact ⟨rfl, Or.inl rfl⟩
  | pollTick i =>
      simp only [step]
      unfold _updateBalance
      constructor
      · split
        · split <;> rfl
        · rfl
      · left
        split
        · split <;> rfl
        · rfl
  | transfer o => simp [txErrorClearer] at h1
  | dismissTransactionError => simp [txErrorClearer] at h1
  | dismissNetworkError => simp [netErrorClearer] at h2
  | toggleTheme b => exact ⟨rfl, Or.inl rfl⟩
  | setIsProcessing b => exact ⟨rfl, Or.inl rfl⟩

/-- Witness for C3 amended: a poll tick on a session showing both errors
clears neither. -/
theorem C3_error_clearing_witness :
    txErrorClearer (Event.pollTick 0) = false ∧
    netErrorClearer (Event.pollTick 0) = false ∧
    ((step cfgBothErrors (Event.pollTick 0)).dapp.state.transactionError =
       cfgBothErrors.dapp.state.transactionError ∧
     ((step cfgBothErrors (Event.pollTick 0)).dapp.state.networkError =
        cfgBothErrors.dapp.state.networkError ∨
      (step cfgBothErrors (Event.pollTick 0)).dapp.state.networkError =
        some "Please connect Metamask to Localhost:8545")) :=
  ⟨rfl, rfl, C3_error_clearing cfgBothErrors (Event.pollTick 0) rfl rfl⟩

theorem timersInv_iff (c : Config) :
    timersInv c = true ↔
      (c.world.activeIntervals =
        c.dapp._pollDataInterval.toList.map (fun i => { id := i, periodMs := 1000 })) ∧
      (c.dapp.state.selectedAddress = none → c.dapp._pollDataInterval = none) ∧
      (∀ r ∈ c.world.activeIntervals, r.id < c.world.nextId) := by
  unfold timersInv
  simp only [Bool.and_eq_true, decide_eq_true_eq, Bool.or_eq_true, Bool.not_eq_true',
    Option.isNone_iff_eq_none, Option.isNone_eq_false_iff, and_assoc]
  constructor
  · rintro ⟨h1, h2, h3⟩
    refine ⟨h1, ?_, h3⟩
    intro hsel
    rcases h2 with h2 | h2
    · simp [hsel] at h2
    · exact h2
  · rintro ⟨h1, h2, h3⟩
    refine ⟨h1, ?_, h3⟩
    by_cases hsel : c.dapp.state.selectedAddress = none
    · exact Or.inr (h2 hsel)
    · exact Or.inl (by simp [Option.isSome_iff_ne_none, hsel])

theorem pollTick_noop (c : Config) (i : Nat)
    (h0 : c.world.activeIntervals = []) : step c (Event.pollTick i) = c := by
  simp only [step, h0]
  rfl

theorem stop_clears (c : Config) (h : timersInv c = true) :
    (_stopPollingData c).world.activeIntervals = [] ∧
    (_stopPollingData c).dapp._pollDataInterval = none ∧
    (_stopPollingData c).world.nextId = c.world.nextId ∧
    (_stopPollingData c).dapp.state = c.dapp.state := by
  obtain ⟨h1, h2, h3⟩ := (timersInv_iff c).mp h
  unfold _stopPollingData
  cases hp : c.dapp._pollDataInterval with
  | none =>
      simp [hp] at h1
      simp [h1]
  | some i =>
      simp [hp] at h1
      simp [h1]

theorem updateBalance_timers (c : Config) :
    timersInv (_updateBalance c) = timersInv c := by
  cases hp : c.dapp._token <;> simp only [_updateBalance, hp] <;> rfl

theorem initialize_inv (c : Config) (env : Env) (ua : Option String)
    (ha : ua.isSome = true) (h0 : c.world.activeIntervals = []) :
    timersInv (_initializeDapp c env ua) = true ∧
    (_initializeDapp c env ua).world.activeIntervals =
      [{ id := c.world.nextId, periodMs := 1000 }] := by
  rcases Option.isSome_iff_exists.mp ha with ⟨a, rfl⟩
  unfold _initializeDapp _initializeEthers _getTokenData _startPollingData _updateBalance
  constructor
  · rw [timersInv_iff]
    simp [h0]
  · simp [h0]

theorem step_timers (c : Config) (e : Event)
    (h : timersInv c = true) (hg : goodEnv e = true) :
    timersInv (step c e) = true ∧
    (stopsAllPolling e = false ∨ (step c e).world.activeIntervals = []) ∧
    (sessionResets e = false ∨ oldTimerGone c (step c e) = true) := by
  obtain ⟨h1, h2, h3⟩ := (timersInv_iff c).mp h
  cases e with
  | connectWallet env =>
      refine ⟨?_, Or.inl rfl, Or.inl rfl⟩
      simp only [step]
      by_cases hs : c.dapp.state.selectedAddress.isSome
      · rw [if_pos hs]
        exact h
      · have hsel : c.dapp.state.selectedAddress = none := by
          cases hx : c.dapp.state.selectedAddress
          · rfl
          · simp [hx] at hs
        have hp : c.dapp._pollDataInterval = none := h2 hsel
        have h0 : c.world.activeIntervals = [] := by rw [h1, hp]; rfl
        rw [if_neg hs]
        unfold _connectWallet _checkNetwork
        by_cases hn : env.networkVersion = HARDHAT_NETWORK_ID
        · simp only [hn, if_true]
          have ha : (env.enabledAccounts.head?).isSome = true := by
            cases hacc : env.enabledAccounts with
            | nil => simp [goodEnv, hacc] at hg
            | cons x xs => simp
          exact (initialize_inv c env _ ha h0).1
        · simp only [hn, if_false]
          rw [timersInv_iff]
          refine ⟨?_, ?_, ?_⟩ <;> simp [h0, hp, hsel]
  | accountsChanged env a =>
      obtain ⟨s1, s2, s3, s4⟩ := stop_clears c h
      cases a with
      | none =>
          refine ⟨?_, Or.inr ?_, Or.inr ?_⟩
          · simp only [step, onAccountsChanged]
            rw [timersInv_iff]
            refine ⟨?_, fun _ => ?_, ?_⟩ <;> simp [_resetState, s1, s2]
          · simp [step, onAccountsChanged, _resetState, s1]
          · unfold oldTimerGone
            cases hp : c.dapp._pollDataInterval with
            | none => rfl
            | some i => simp [step, onAccountsChanged, _resetState, s1]
      | some addr =>
          refine ⟨?_, Or.inl rfl, Or.inr ?_⟩
          · simp only [step, onAccountsChanged]
            exact (initialize_inv _ env (some addr) rfl s1).1
          · unfold oldTimerGone
            cases hp : c.dapp._pollDataInterval with
            | none => rfl
            | some i =>
                have hi : i < c.world.nextId := by
                  have hmem : ({ id := i, periodMs := 1000 } : IntervalRec) ∈
                      c.world.activeIntervals := by
                    rw [h1, hp]; simp
                  exact h3 _ hmem
                simp only [step, onAccountsChanged]
                rw [(initialize_inv _ env (some addr) rfl s1).2, s3]
                simp
                omega
  | networkChanged =>
      obtain ⟨s1, s2, s3, s4⟩ := stop_clears c h
      refine ⟨?_, Or.inr ?_, Or.inr ?_⟩
      · simp only [step, onNetworkChanged]
        rw [timersInv_iff]
        refine ⟨?_, fun _ => ?_, ?_⟩ <;> simp [_resetState, s1, s2]
      · simp [step, onNetworkChanged, _resetState, s1]
      · unfold oldTimerGone
        cases hp : c.dapp._pollDataInterval with
        | none => rfl
        | some i => simp [step, onNetworkChanged, _resetState, s1]
  | unmount =>
      obtain ⟨s1, s2, s3, s4⟩ := stop_clears c h
      refine ⟨?_, Or.inr s1, Or.inl rfl⟩
      simp only [step]
      rw [timersInv_iff]
      refine ⟨?_, fun _ => s2, ?_⟩ <;> simp [s1, s2]
  | pollTick i =>
      refine ⟨?_, Or.inl rfl, Or.inl rfl⟩
      simp only [step]
      split
      · rw [updateBalance_timers]; exact h
      · exact h
  | transfer o =>
      obtain ⟨f1, f2, f3, f4, f5, f6, f7, f8, f9⟩ := transferTokens_frame c o
      refine ⟨?_, Or.inl rfl, Or.inl rfl⟩
      simp only [step]
      rw [timersInv_iff, f2, f7, f8, f9]
      exact ⟨h1, h2, h3⟩
  | dismissTransactionError => exact ⟨h, Or.inl rfl, Or.inl rfl⟩
  | dismissNetworkError => exact ⟨h, Or.inl rfl, Or.inl rfl⟩
  | toggleTheme b => exact ⟨h, Or.inl rfl, Or.inl rfl⟩
  | setIsProcessing b => exact ⟨h, Or.inl rfl, Or.inl rfl⟩


/-- C7: starting from any configuration satisfying the component's timer
discipline, every event preserves that discipline (for a provider whose
enable() call reveals at least one account); after unmount, a network
change or an account removal the timer registry is empty; after any
session reset no timer registered before the reset survives; and on an
empty registry a poll tick is a no-op, so no further balance reads occur
past those points.  The discipline holds in the freshly constructed
component. -/
theorem C7_no_dangling_timers (c : Config) (e : Event) (i : Nat)
    (h : timersInv c = true) (hg : goodEnv e = true) :
    timersInv initConfig = true ∧
    timersInv (step c e) = true ∧
    (stopsAllPolling e = false ∨ (step c e).world.activeIntervals = []) ∧
    (sessionResets e = false ∨ oldTimerGone c (step c e) = true) ∧
    (c.world.activeIntervals ≠ [] ∨ step c (Event.pollTick i) = c) := by
  obtain ⟨a1, a2, a3⟩ := step_timers c e h hg
  refine ⟨by decide, a1, a2, a3, ?_⟩
  by_cases h0 : c.world.activeIntervals = []
  · exact Or.inr (pollTick_noop c i h0)
  · exact Or.inl h0

/-- Witness for C7: unmounting a session with an active polling timer. -/
theorem C7_no_dangling_timers_witness :
    timersInv cfgPolling = true ∧
    goodEnv Event.unmount = true ∧
    (timersInv initConfig = true ∧
     timersInv (step cfgPolling Event.unmount) = true ∧
     (stopsAllPolling Event.unmount = false ∨
      (step cfgPolling Event.unmount).world.activeIntervals = []) ∧
     (sessionResets Event.unmount = false ∨
      oldTimerGone cfgPolling (step cfgPolling Event.unmount) = true) ∧
     (cfgPolling.world.activeIntervals ≠ [] ∨
      step cfgPolling (Event.pollTick 0) = cfgPolling)) :=
  ⟨by decide, rfl, C7_no_dangling_timers cfgPolling Event.unmount 0 (by decide) rfl⟩

end EDot
